import Mathlib

/-!
Shallow embedding of the monitoring engine of the `isitup` repository:
the per-site health-check probe and classifier
(src/lib/services/health-check.ts), the check-cycle scheduler
(scheduler module), the manual check action
(triggerCheck in src/lib/actions/settings.ts) and the Discord notifier
(sendDiscordNotification / getWebhookUrl).

Network and database effects are modelled by passing the outcome of each
external call as an explicit parameter; machine numbers are `Int`
(JavaScript numbers are exact on the integer values involved); JavaScript
truthiness of nullable strings is modelled explicitly.
-/

namespace IsItUp

/-- Classified health status: the `status` enum of the `checks` table. -/
inductive Status where
  | up
  | down
  | degraded
deriving DecidableEq, Repr

/-- A row of the `sites` table, restricted to the fields the monitoring
engine reads (the `createdAt` timestamp is never read by the engine).
`checkContent` is the nullable `check_content` column. -/
structure Site where
  id : String
  userId : String
  name : String
  url : String
  checkSsl : Bool
  checkContent : Option String
  enabled : Bool
deriving DecidableEq, Repr

/-- A row of the `users` table, restricted to the fields the engine reads. -/
structure UserRec where
  id : String
  discordWebhookUrl : Option String
deriving DecidableEq, Repr

/-- The `CheckResult` record returned by `performCheck`.  Timestamps are
epoch milliseconds. -/
structure CheckResult where
  status : Status
  httpStatus : Option Int
  responseTimeMs : Option Int
  sslValid : Option Bool
  sslExpiresAt : Option Int
  dnsResolved : Bool
  contentFound : Option Bool
  errorMessage : Option String
deriving DecidableEq, Repr

/-- A persisted row of the `checks` table: the `CheckResult` fields plus
identity and creation time. -/
structure Check where
  id : String
  siteId : String
  timestamp : Int
  status : Status
  httpStatus : Option Int
  responseTimeMs : Option Int
  sslValid : Option Bool
  sslExpiresAt : Option Int
  dnsResolved : Bool
  contentFound : Option Bool
  errorMessage : Option String
deriving DecidableEq, Repr

/-- JavaScript truthiness of a `string | null` value: `null` and the empty
string are falsy, every other string is truthy. -/
def truthyStr : Option String → Bool
  | none => false
  | some s => !s.isEmpty

/-- Rendering of a `number | null` inside a template literal:
`null` prints as "null". -/
def jsNumToString : Option Int → String
  | none => "null"
  | some n => toString n

/-- `TIMEOUT_MS` constant of health-check.ts. -/
def TIMEOUT_MS : Int := 30000

/-- `SLOW_THRESHOLD_MS` constant of health-check.ts. -/
def SLOW_THRESHOLD_MS : Int := 3000

/-- `SSL_WARNING_DAYS` constant of health-check.ts. -/
def SSL_WARNING_DAYS : Int := 14

/-- Result record of `checkHttp`. -/
structure HttpResult where
  status : Option Int
  responseTimeMs : Int
  body : Option String
  error : Option String
deriving DecidableEq, Repr

/-- The `Date.now()` readings observed on the success path of `checkHttp`:
`start` just before the `fetch` call, `fetchResolved` when the `fetch`
promise resolves (response headers available), `bodyDone` when
`response.text()` resolves (body fully read). -/
structure HttpTiming where
  start : Int
  fetchResolved : Int
  bodyDone : Int
deriving DecidableEq, Repr

/-- Success path of `checkHttp` (the `try` branch): the elapsed time is
taken at `fetchResolved`, before the body is read. -/
def checkHttpSuccess (t : HttpTiming) (status : Int) (body : String) : HttpResult :=
  { status := some status
    responseTimeMs := t.fetchResolved - t.start
    body := some body
    error := none }

/-- Failure path of `checkHttp` (the `catch` branch): `catchTime` is the
`Date.now()` reading inside the catch block, `errMsg` the error's message
(or "Unknown error" for a non-Error throw). -/
def checkHttpFailure (start catchTime : Int) (errMsg : String) : HttpResult :=
  { status := none
    responseTimeMs := catchTime - start
    body := none
    error := some errMsg }

/-- Outcome of `checkSsl`: certificate validity flag and expiry time in
epoch milliseconds (`null` when no certificate was obtained). -/
structure SslOutcome where
  valid : Bool
  expiresAt : Option Int
deriving DecidableEq, Repr

/-- Whether `pat` occurs at the start of `text` (character-exact). -/
def matchesAt : List Char → List Char → Bool
  | [], _ => true
  | _ :: _, [] => false
  | a :: as, b :: bs => (a == b) && matchesAt as bs

/-- Whether `pat` occurs contiguously anywhere in `text`: the semantics of
JavaScript `text.includes(pat)` (case-sensitive, literal, non-regex). -/
def containsSeq (pat : List Char) : List Char → Bool
  | [] => pat.isEmpty
  | b :: bs => matchesAt pat (b :: bs) || containsSeq pat bs

/-- `checkContent(body, searchText)` of health-check.ts: falsy body
(null or empty) gives `false`, otherwise substring containment
(`body.includes(searchText)`, case-sensitive and literal). -/
def checkContent : Option String → String → Bool
  | none, _ => false
  | some b, searchText =>
    if b.isEmpty then false else containsSeq searchText.toList b.toList

/-- The local `sslValid` of `performCheck` after stage 3: set only when the
URL is HTTPS and `site.checkSsl` is enabled. -/
def derivedSslValid (site : Site) (isHttps : Bool) (ssl : SslOutcome) : Option Bool :=
  if isHttps && site.checkSsl then some ssl.valid else none

/-- The local `sslExpiresAt` of `performCheck` after stage 3. -/
def derivedSslExpiresAt (site : Site) (isHttps : Bool) (ssl : SslOutcome) : Option Int :=
  if isHttps && site.checkSsl then ssl.expiresAt else none

/-- The local `contentFound` of `performCheck` after stage 4: computed only
when `site.checkContent` is truthy. -/
def derivedContentFound (site : Site) (body : Option String) : Option Bool :=
  if truthyStr site.checkContent then
    some (checkContent body (site.checkContent.getD ""))
  else none

/-- `isHttpOk` condition of `performCheck`. -/
def isHttpOk : Option Int → Bool
  | none => false
  | some s => 200 ≤ s && s < 400

/-- `isSlow` condition of `performCheck`. -/
def isSlow (responseTimeMs : Int) : Bool :=
  responseTimeMs > SLOW_THRESHOLD_MS

/-- `isSslExpiringSoon` condition of `performCheck`: truthy `sslExpiresAt`
and strictly less than 14 days (in milliseconds) until expiry. -/
def isSslExpiringSoon (sslExpiresAt : Option Int) (now : Int) : Bool :=
  match sslExpiresAt with
  | none => false
  | some t => t - now < SSL_WARNING_DAYS * 24 * 60 * 60 * 1000

/-- `isContentMissing` condition of `performCheck`: a truthy
`site.checkContent` together with a falsy `contentFound`. -/
def isContentMissing (siteCheckContent : Option String) (contentFound : Option Bool) : Bool :=
  truthyStr siteCheckContent && !(contentFound == some true)

/-- `isSslInvalid` condition of `performCheck`. -/
def isSslInvalid (siteCheckSsl : Bool) (isHttps : Bool) (sslValid : Option Bool) : Bool :=
  siteCheckSsl && isHttps && (sslValid == some false)

/-- The `status` assignment of `performCheck`. -/
def classifyStatus (httpOk sslInvalid slow expSoon contentMissing : Bool) : Status :=
  if !httpOk || sslInvalid then .down
  else if slow || expSoon || contentMissing then .degraded
  else .up

/-- The `errorMessage` assignment of `performCheck`. -/
def classifyMessage (httpStatus : Option Int)
    (httpOk sslInvalid slow expSoon contentMissing : Bool) : Option String :=
  if !httpOk || sslInvalid then
    if !httpOk then some ("HTTP " ++ jsNumToString httpStatus)
    else if sslInvalid then some "SSL certificate invalid"
    else none
  else if slow || expSoon || contentMissing then
    if slow then some "Response time > 3s"
    else if expSoon then some "SSL certificate expiring soon"
    else if contentMissing then some "Expected content not found"
    else none
  else none

/-- `performCheck(site)` of health-check.ts.  External effects are passed
as parameters: `isHttps` is the value of
`new URL(site.url).protocol === "https:"`, `dnsResolved` the outcome of
`checkDns`, `httpResult` the record returned by `checkHttp`, `ssl` the
record `checkSsl` would resolve with (consulted only when the SSL stage
runs), and `now` the `Date.now()` reading used in the expiry comparison. -/
def performCheck (site : Site) (isHttps : Bool) (dnsResolved : Bool)
    (httpResult : HttpResult) (ssl : SslOutcome) (now : Int) : CheckResult :=
  if !dnsResolved then
    { status := .down
      httpStatus := none
      responseTimeMs := none
      sslValid := none
      sslExpiresAt := none
      dnsResolved := false
      contentFound := none
      errorMessage := some "DNS resolution failed" }
  else if truthyStr httpResult.error then
    { status := .down
      httpStatus := none
      responseTimeMs := some httpResult.responseTimeMs
      sslValid := none
      sslExpiresAt := none
      dnsResolved := true
      contentFound := none
      errorMessage := httpResult.error }
  else
    let sslValid := derivedSslValid site isHttps ssl
    let sslExpiresAt := derivedSslExpiresAt site isHttps ssl
    let contentFound := derivedContentFound site httpResult.body
    let httpOk := isHttpOk httpResult.status
    let slow := isSlow httpResult.responseTimeMs
    let expSoon := isSslExpiringSoon sslExpiresAt now
    let contentMissing := isContentMissing site.checkContent contentFound
    let sslInvalid := isSslInvalid site.checkSsl isHttps sslValid
    { status := classifyStatus httpOk sslInvalid slow expSoon contentMissing
      httpStatus := httpResult.status
      responseTimeMs := some httpResult.responseTimeMs
      sslValid := sslValid
      sslExpiresAt := sslExpiresAt
      dnsResolved := true
      contentFound := contentFound
      errorMessage := classifyMessage httpResult.status
        httpOk sslInvalid slow expSoon contentMissing }

/-! ## Notifier (sendDiscordNotification / getWebhookUrl) -/

/-- The observable decision of `sendDiscordNotification` up to the outbound
POST: either a no-op that returns false without contacting the webhook, or
a dispatch attempt carrying the embed title and description that are built
before the POST. -/
inductive NotifyDecision where
  | noop
  | dispatch (title : String) (description : String)
deriving DecidableEq, Repr

/-- `getStatusEmoji` of the Discord module. -/
def getStatusEmoji : Status → String
  | .up => "🟢"
  | .down => "🔴"
  | .degraded => "🟡"

/-- `sendDiscordNotification(webhookUrl, site, check, previousStatus)`:
the guard clauses and title/description selection.  The POST itself and
its error handling (non-fatal, logged) are external I/O and are not part
of the decision. -/
def sendDiscordNotification (webhookUrl : String) (site : Site) (check : Check)
    (previousStatus : Option Status) : NotifyDecision :=
  if webhookUrl.isEmpty then .noop
  else if previousStatus == some check.status then .noop
  else if check.status == Status.down then
    .dispatch (getStatusEmoji check.status ++ " INCIDENT: " ++ site.name ++ " is DOWN")
      "The site is no longer responding and requires attention."
  else if check.status == Status.degraded then
    .dispatch (getStatusEmoji check.status ++ " WARNING: " ++ site.name ++ " is DEGRADED")
      "The site is experiencing performance issues or partial failures."
  else if check.status == Status.up && previousStatus == some Status.down then
    .dispatch (getStatusEmoji check.status ++ " RESOLVED: " ++ site.name ++ " is back UP")
      "The incident has been resolved. The site is now fully operational."
  else if check.status == Status.up && previousStatus == some Status.degraded then
    .dispatch (getStatusEmoji check.status ++ " RESOLVED: " ++ site.name ++ " is fully operational")
      "Performance issues have been resolved."
  else .noop

/-- Whether a `NotifyDecision` proceeds to the outbound POST. -/
def attemptsDispatch : NotifyDecision → Bool
  | .noop => false
  | .dispatch _ _ => true

/-- `getWebhookUrl(userWebhook)` of the Discord module:
`userWebhook || process.env.DISCORD_WEBHOOK_URL || null`.  The process
environment variable is passed as the explicit parameter `envWebhook`
(`none` when unset). -/
def getWebhookUrl (userWebhook : Option String) (envWebhook : Option String) : Option String :=
  if truthyStr userWebhook then userWebhook
  else if truthyStr envWebhook then envWebhook
  else none

/-! ## Scheduler (runChecks) and the manual check action (triggerCheck)

The scheduler's effects are modelled as an event trace; each external call
(database read, probe, write, notification) is one event, and the outcome
each call would produce is supplied by a per-site script. -/

/-- One observable effect of a check cycle or a manual check. -/
inductive Event where
  | logSkip
  | cycleError (msg : String)
  | fetchSites (n : Nat)
  | probe (siteId : String)
  | persist (siteId : String)
  | notifyAttempt (siteId : String) (webhookUrl : String)
  | siteError (siteId : String) (msg : String)
deriving DecidableEq, Repr

/-- Number of probes issued in a trace. -/
def probeCount (tr : List Event) : Nat :=
  (tr.filter fun e => match e with | .probe _ => true | _ => false).length

/-- Number of checks persisted in a trace. -/
def persistCount (tr : List Event) : Nat :=
  (tr.filter fun e => match e with | .persist _ => true | _ => false).length

/-- Number of site-list fetches in a trace. -/
def fetchCount (tr : List Event) : Nat :=
  (tr.filter fun e => match e with | .fetchSites _ => true | _ => false).length

/-- Number of notification attempts in a trace. -/
def notifyCount (tr : List Event) : Nat :=
  (tr.filter fun e => match e with | .notifyAttempt _ _ => true | _ => false).length

/-- Outcome of one awaited external call: it resolves with a value or
throws with a message. -/
inductive StageResult (α : Type) where
  | ok (val : α)
  | err (msg : String)
deriving DecidableEq, Repr

/-- The outcomes the external collaborators would produce for one site
during a cycle, in the order `runChecks` consults them:
`getLatestCheckForSite`, `performCheck`, `saveCheckResult`, the user
lookup, and the post-save `getLatestCheckForSite`. -/
structure SiteScript where
  prevCheck : StageResult (Option Check)
  probe : StageResult CheckResult
  save : StageResult Unit
  userLookup : StageResult (Option UserRec)
  latestAfterSave : StageResult (Option Check)
deriving DecidableEq, Repr

/-- The body of the per-site `try` block of `runChecks`, ended either by
completing or by the first thrown error, which the enclosing `catch`
turns into a logged `siteError` event.  A `probe` event marks the call to
`performCheck`, a `persist` event a completed `saveCheckResult`, a
`notifyAttempt` event the call to `sendDiscordNotification`. -/
def processSite (envWebhook : Option String) (site : Site) (sc : SiteScript) :
    List Event :=
  match sc.prevCheck with
  | .err m => [.siteError site.id m]
  | .ok prev =>
    let previousStatus : Option Status := prev.map (fun c => c.status)
    match sc.probe with
    | .err m => [.probe site.id, .siteError site.id m]
    | .ok result =>
      match sc.save with
      | .err m => [.probe site.id, .siteError site.id m]
      | .ok _ =>
        if previousStatus == some result.status then
          [.probe site.id, .persist site.id]
        else
          match sc.userLookup with
          | .err m => [.probe site.id, .persist site.id, .siteError site.id m]
          | .ok user =>
            match getWebhookUrl (user.bind (fun u => u.discordWebhookUrl)) envWebhook with
            | none => [.probe site.id, .persist site.id]
            | some url =>
              match sc.latestAfterSave with
              | .err m => [.probe site.id, .persist site.id, .siteError site.id m]
              | .ok none => [.probe site.id, .persist site.id]
              | .ok (some _) =>
                [.probe site.id, .persist site.id, .notifyAttempt site.id url]

/-- The scheduler module's state: the module-level `isRunning` flag
(the spec's `cycleInProgress`). -/
structure SchedulerState where
  isRunning : Bool
deriving DecidableEq, Repr

/-- The collaborator outcomes for one whole cycle: the enabled-site query
(which may itself throw, caught by the outer try/catch) paired with each
site's script, and the process-wide default webhook. -/
structure CycleEnv where
  fetchSites : StageResult (List (Site × SiteScript))
  envWebhook : Option String
deriving DecidableEq, Repr

/-- `runChecks` of the scheduler module: skip when `isRunning` is already
set; otherwise set the flag, fetch enabled sites, process each site inside
a per-site try/catch, and reset the flag in a `finally` block (so it is
false on every non-skip exit, error or not). -/
def runChecks (env : CycleEnv) (s : SchedulerState) : SchedulerState × List Event :=
  if s.isRunning then
    (s, [.logSkip])
  else
    match env.fetchSites with
    | .err m => ({ isRunning := false }, [.cycleError m])
    | .ok sites =>
      ({ isRunning := false },
        .fetchSites sites.length ::
          (sites.map fun p => processSite env.envWebhook p.1 p.2).flatten)

/-- The collaborator outcomes consulted by `triggerCheck(siteId)` in
src/lib/actions/settings.ts, in order: the auth session, the
ownership-filtered site lookup, `getLatestCheckForSite`, `performCheck`,
the user lookup, and the post-save `getLatestCheckForSite`.  The database
stages of this action have no surrounding try/catch; the claims settled
here only concern runs in which they resolve, so they are passed as plain
values. -/
structure TriggerEnv where
  sessionUserId : Option String
  site : Option Site
  prevCheck : Option Check
  probeResult : CheckResult
  user : Option UserRec
  latestAfterSave : Option Check
deriving DecidableEq, Repr

/-- `triggerCheck(siteId)`: throws on a missing session or site, otherwise
probes, persists, and notifies only when `user?.discordWebhookUrl` is
truthy and the status changed — the process-wide default webhook is never
consulted on this path. -/
def triggerCheckEvents (env : TriggerEnv) : Except String (List Event × CheckResult) :=
  match env.sessionUserId with
  | none => .error "Not authenticated"
  | some _ =>
    match env.site with
    | none => .error "Site not found"
    | some site =>
      let previousStatus : Option Status := env.prevCheck.map (fun c => c.status)
      let userWebhook : Option String := env.user.bind (fun u => u.discordWebhookUrl)
      let notifyEvents : List Event :=
        if truthyStr userWebhook && !(previousStatus == some env.probeResult.status) then
          match env.latestAfterSave with
          | some _ => [.notifyAttempt site.id (userWebhook.getD "")]
          | none => []
        else []
      .ok ([.probe site.id, .persist site.id] ++ notifyEvents, env.probeResult)

/-- The event trace of a manual check (empty when the action throws before
reaching the probe). -/
def triggerTrace (env : TriggerEnv) : List Event :=
  match triggerCheckEvents env with
  | .ok (tr, _) => tr
  | .error _ => []

/-- The manual check action paired with the scheduler module's state:
`triggerCheck` contains no reference to the scheduler module's `isRunning`
flag, so the flag passes through unchanged and the action's behaviour does
not depend on it. -/
def triggerCheckS (env : TriggerEnv) (s : SchedulerState) :
    SchedulerState × Except String (List Event × CheckResult) :=
  (s, triggerCheckEvents env)

/-! ## Concrete fixtures used to instantiate the theorems -/

/-- An HTTPS site with the SSL check enabled and no content check. -/
def siteA : Site :=
  { id := "site-a", userId := "user-1", name := "Example", url := "https://example.com"
    checkSsl := true, checkContent := none, enabled := true }

/-- An HTTPS site with a configured content check. -/
def siteContent : Site :=
  { id := "site-b", userId := "user-1", name := "Example B", url := "https://example.org"
    checkSsl := true, checkContent := some "world", enabled := true }

/-- A fast, successful HTTP fetch. -/
def httpFast : HttpResult :=
  { status := some 200, responseTimeMs := 150, body := some "ok", error := none }

/-- A server-error response that still completed at the HTTP level. -/
def http500 : HttpResult :=
  { status := some 500, responseTimeMs := 120, body := some "hello world", error := none }

/-- A transport-level failure of the HTTP stage. -/
def httpErr : HttpResult :=
  { status := none, responseTimeMs := 42, body := none
    error := some "fetch failed: connection reset" }

/-- A valid certificate far from expiry. -/
def sslLongValid : SslOutcome := { valid := true, expiresAt := some 99999999999999 }

/-- A valid certificate with exactly 14 days (in milliseconds) remaining
when `now = 0`. -/
def sslBoundary : SslOutcome := { valid := true, expiresAt := some 1209600000 }

/-- An `up` probe outcome. -/
def resUp : CheckResult :=
  { status := .up, httpStatus := some 200, responseTimeMs := some 150
    sslValid := some true, sslExpiresAt := some 99999999999999
    dnsResolved := true, contentFound := none, errorMessage := none }

/-- A persisted `down` check. -/
def checkDownRec : Check :=
  { id := "chk-1", siteId := "site-a", timestamp := 0, status := .down
    httpStatus := some 500, responseTimeMs := some 100, sslValid := none
    sslExpiresAt := none, dnsResolved := true, contentFound := none
    errorMessage := some "HTTP 500" }

/-- A persisted `up` check. -/
def checkUpRec : Check :=
  { id := "chk-2", siteId := "site-a", timestamp := 5, status := .up
    httpStatus := some 200, responseTimeMs := some 150, sslValid := none
    sslExpiresAt := none, dnsResolved := true, contentFound := none
    errorMessage := none }

/-- A site script whose every stage resolves and whose probe is `up` with
no previous check. -/
def scGood : SiteScript :=
  { prevCheck := .ok none, probe := .ok resUp, save := .ok ()
    userLookup := .ok none, latestAfterSave := .ok none }

/-- A site script whose probe throws. -/
def scBad : SiteScript :=
  { prevCheck := .ok none, probe := .err "boom", save := .ok ()
    userLookup := .ok none, latestAfterSave := .ok none }

/-- A two-site cycle in which the first site's probe throws. -/
def envTwoSites : CycleEnv :=
  { fetchSites := .ok [(siteContent, scBad), (siteA, scGood)], envWebhook := none }

/-- A user with no configured webhook. -/
def userNoWebhook : UserRec := { id := "user-1", discordWebhookUrl := none }

/-- A manual-check environment: authenticated, site found, no previous
check, `up` probe, user without webhook. -/
def envManual : TriggerEnv :=
  { sessionUserId := some "user-1", site := some siteA, prevCheck := none
    probeResult := resUp, user := some userNoWebhook, latestAfterSave := none }

/-- A cycle site script whose database stages all resolve. -/
def scheduledScript (prev : Option Check) (result : CheckResult)
    (user : Option UserRec) (newCheck : Option Check) : SiteScript :=
  { prevCheck := .ok prev, probe := .ok result, save := .ok ()
    userLookup := .ok user, latestAfterSave := .ok newCheck }

/-- A manual-check environment with a down-to-up transition and a user
without a configured webhook. -/
def envManualTransition : TriggerEnv :=
  { sessionUserId := some "user-1", site := some siteA
    prevCheck := some checkDownRec, probeResult := resUp
    user := some userNoWebhook, latestAfterSave := some checkUpRec }

/-! ## Theorems for the claims -/

/-- C2: a check-trigger firing while the `cycleInProgress` flag
(`isRunning`) is set performs no work at all — the site list is not
fetched, no probe is issued, no check is persisted, and the state is
returned unchanged — so only the already-running cycle proceeds. -/
theorem cycle_skip_when_in_progress (env : CycleEnv) (s : SchedulerState)
    (h : s.isRunning = true) :
    runChecks env s = (s, [Event.logSkip]) ∧
    fetchCount (runChecks env s).2 = 0 ∧
    probeCount (runChecks env s).2 = 0 ∧
    persistCount (runChecks env s).2 = 0 := by
  simp [runChecks, h, fetchCount, probeCount, persistCount]

/-- Witness for C2 at a concrete environment and a flagged state. -/
theorem cycle_skip_when_in_progress_witness :
    (SchedulerState.mk true).isRunning = true ∧
    probeCount (runChecks envTwoSites (SchedulerState.mk true)).2 = 0 ∧
    persistCount (runChecks envTwoSites (SchedulerState.mk true)).2 = 0 :=
  ⟨rfl, (cycle_skip_when_in_progress envTwoSites (SchedulerState.mk true) rfl).2.2.1,
    (cycle_skip_when_in_progress envTwoSites (SchedulerState.mk true) rfl).2.2.2⟩

/-- C4 counterexample: with `Date.now()` readings 0 at request start, 100
when the fetch resolves and 500 when the body read completes, the recorded
`responseTimeMs` is 100, not the claimed full-response time 500 — the
elapsed time is taken before `response.text()` is awaited. -/
theorem response_time_excludes_body_read_cex :
    (checkHttpSuccess (HttpTiming.mk 0 100 500) 200 "hello").responseTimeMs = 100 ∧
    (HttpTiming.mk 0 100 500).bodyDone - (HttpTiming.mk 0 100 500).start = 500 ∧
    (100 : Int) ≠ 500 := by
  refine ⟨rfl, rfl, by decide⟩

/-- C4 amended: on every successful HTTP fetch, `responseTimeMs` is the
wall-clock time from request start to the resolution of the fetch
(response headers available); the time spent reading the body is excluded,
and the result does not depend on when the body read completes. -/
theorem response_time_measures_fetch_resolution (t : HttpTiming) (status : Int)
    (body : String) (otherBodyDone : Int) :
    (checkHttpSuccess t status body).responseTimeMs = t.fetchResolved - t.start ∧
    checkHttpSuccess t status body =
      checkHttpSuccess (HttpTiming.mk t.start t.fetchResolved otherBodyDone) status body := by
  exact ⟨rfl, rfl⟩

/-- C7: when DNS resolved but the HTTP stage failed at the transport level,
the probe returns `down` with `dnsResolved = true`, the elapsed time, the
transport error text verbatim, all of `httpStatus`, `sslValid`,
`sslExpiresAt`, `contentFound` unset — and the result is independent of
the TLS outcome and the clock, i.e. the TLS and content stages do not
run. -/
theorem transport_failure_result (site : Site) (isHttps : Bool)
    (httpResult : HttpResult) (ssl ssl2 : SslOutcome) (now now2 : Int)
    (herr : truthyStr httpResult.error = true) :
    performCheck site isHttps true httpResult ssl now =
      { status := .down
        httpStatus := none
        responseTimeMs := some httpResult.responseTimeMs
        sslValid := none
        sslExpiresAt := none
        dnsResolved := true
        contentFound := none
        errorMessage := httpResult.error } ∧
    performCheck site isHttps true httpResult ssl now =
      performCheck site isHttps true httpResult ssl2 now2 := by
  constructor <;> simp [performCheck, herr]

/-- Witness for C7 at a concrete connection-reset failure. -/
theorem transport_failure_result_witness :
    truthyStr httpErr.error = true ∧
    performCheck siteA true true httpErr sslLongValid 0 =
      { status := .down
        httpStatus := none
        responseTimeMs := some 42
        sslValid := none
        sslExpiresAt := none
        dnsResolved := true
        contentFound := none
        errorMessage := some "fetch failed: connection reset" } :=
  ⟨rfl, (transport_failure_result siteA true httpErr sslLongValid sslLongValid 0 0 rfl).1⟩

/-- C5 counterexample: a fast HTTP 200 on an HTTPS site with a valid
certificate expiring in exactly 14 days (1209600000 ms at `now = 0`) is
classified `up` with no reason — not `degraded` with reason
"SSL certificate expiring soon" as the claim's boundary case requires,
because the code compares with strict `<`. -/
theorem ssl_boundary_exactly_14_days_cex :
    SSL_WARNING_DAYS * 24 * 60 * 60 * 1000 = 1209600000 ∧
    sslBoundary.expiresAt = some 1209600000 ∧
    (performCheck siteA true true httpFast sslBoundary 0).status = Status.up ∧
    (performCheck siteA true true httpFast sslBoundary 0).errorMessage = none := by
  refine ⟨by decide, rfl, by decide, by decide⟩

/-- C5 amended: with no down-rule applicable and a fast response, the
check is `degraded` with reason "SSL certificate expiring soon" exactly
when strictly fewer than 14 days (in milliseconds) remain until the
certificate expiry; at exactly 14 days remaining the check is `up`. -/
theorem ssl_expiring_soon_strict (site : Site) (httpResult : HttpResult)
    (ssl : SslOutcome) (now code expiry : Int)
    (herr : truthyStr httpResult.error = false)
    (hstatus : httpResult.status = some code)
    (hok : 200 ≤ code ∧ code < 400)
    (hssl : site.checkSsl = true)
    (hvalid : ssl.valid = true)
    (hexp : ssl.expiresAt = some expiry)
    (hfast : httpResult.responseTimeMs ≤ SLOW_THRESHOLD_MS)
    (hnocontent : site.checkContent = none) :
    ((performCheck site true true httpResult ssl now).status = Status.degraded ∧
      (performCheck site true true httpResult ssl now).errorMessage =
        some "SSL certificate expiring soon") ↔
    expiry - now < SSL_WARNING_DAYS * 24 * 60 * 60 * 1000 := by
  have hhttpOk : isHttpOk httpResult.status = true := by
    rw [hstatus]
    simp only [isHttpOk, Bool.and_eq_true, decide_eq_true_eq]
    exact hok
  have hslow : isSlow httpResult.responseTimeMs = false := by
    simp only [isSlow, decide_eq_false_iff_not, not_lt]
    exact hfast
  have hsslValid : derivedSslValid site true ssl = some true := by
    simp [derivedSslValid, hssl, hvalid]
  have hsslInv : isSslInvalid site.checkSsl true (derivedSslValid site true ssl) = false := by
    simp [isSslInvalid, hsslValid]
  have hcf : derivedContentFound site httpResult.body = none := by
    simp [derivedContentFound, hnocontent, truthyStr]
  have hcm : isContentMissing site.checkContent (derivedContentFound site httpResult.body) = false := by
    simp [isContentMissing, hnocontent, truthyStr]
  have hexpAt : derivedSslExpiresAt site true ssl = some expiry := by
    simp [derivedSslExpiresAt, hssl, hexp]
  by_cases hcut : expiry - now < SSL_WARNING_DAYS * 24 * 60 * 60 * 1000
  · have hsoon : isSslExpiringSoon (derivedSslExpiresAt site true ssl) now = true := by
      simp only [hexpAt, isSslExpiringSoon, decide_eq_true_eq]
      exact hcut
    simp [performCheck, herr, hhttpOk, hslow, hsslInv, hcm, hsoon,
      classifyStatus, classifyMessage, hcut]
  · have hsoon : isSslExpiringSoon (derivedSslExpiresAt site true ssl) now = false := by
      simp only [hexpAt, isSslExpiringSoon, decide_eq_false_iff_not]
      exact hcut
    simp [performCheck, herr, hhttpOk, hslow, hsslInv, hcm, hsoon,
      classifyStatus, classifyMessage, hcut]

/-- Witness for the amended C5 at one millisecond under the 14-day
threshold. -/
theorem ssl_expiring_soon_strict_witness :
    (performCheck siteA true true httpFast (SslOutcome.mk true (some 1209599999)) 0).status =
      Status.degraded ∧
    (performCheck siteA true true httpFast (SslOutcome.mk true (some 1209599999)) 0).errorMessage =
      some "SSL certificate expiring soon" :=
  (ssl_expiring_soon_strict siteA httpFast (SslOutcome.mk true (some 1209599999)) 0 200
    1209599999 rfl rfl (by decide) rfl rfl rfl (by decide) rfl).mpr (by decide)

/-- C10: a fetch that completes with a status outside [200, 400) does not
short-circuit: with SSL checking enabled on an HTTPS site and a configured
content substring, the returned result is `down` yet still carries the TLS
findings (`sslValid`, `sslExpiresAt`), the content finding
(`contentFound`), and the actual `httpStatus` and `responseTimeMs`. -/
theorem down_status_still_runs_stages
    (site : Site) (httpResult : HttpResult) (ssl : SslOutcome) (now code : Int)
    (pat body : String)
    (herr : truthyStr httpResult.error = false)
    (hstatus : httpResult.status = some code)
    (hdown : ¬ (200 ≤ code ∧ code < 400))
    (hssl : site.checkSsl = true)
    (hcontent : site.checkContent = some pat)
    (hpat : pat.isEmpty = false)
    (hbody : httpResult.body = some body) :
    performCheck site true true httpResult ssl now =
      { status := .down
        httpStatus := some code
        responseTimeMs := some httpResult.responseTimeMs
        sslValid := some ssl.valid
        sslExpiresAt := ssl.expiresAt
        dnsResolved := true
        contentFound := some (checkContent (some body) pat)
        errorMessage := some ("HTTP " ++ toString code) } := by
  have hhttpBad : isHttpOk httpResult.status = false := by
    rw [hstatus]
    simp only [isHttpOk, Bool.and_eq_false_iff, decide_eq_false_iff_not]
    omega
  have hsslv : derivedSslValid site true ssl = some ssl.valid := by
    simp [derivedSslValid, hssl]
  have hexpAt : derivedSslExpiresAt site true ssl = ssl.expiresAt := by
    simp [derivedSslExpiresAt, hssl]
  have hcf : derivedContentFound site httpResult.body = some (checkContent (some body) pat) := by
    simp [derivedContentFound, hcontent, hbody, truthyStr, hpat]
  rw [hstatus] at hhttpBad
  simp [performCheck, herr, hhttpBad, hsslv, hexpAt, hcf, hstatus,
    classifyStatus, classifyMessage, jsNumToString]

/-- Witness for C10: an HTTP 500 whose body still contains the configured
substring, on an HTTPS site with SSL checking on. -/
theorem down_status_still_runs_stages_witness :
    performCheck siteContent true true http500 sslLongValid 0 =
      { status := .down
        httpStatus := some 500
        responseTimeMs := some 120
        sslValid := some true
        sslExpiresAt := some 99999999999999
        dnsResolved := true
        contentFound := some true
        errorMessage := some "HTTP 500" } := by
  have h := down_status_still_runs_stages siteContent http500 sslLongValid 0 500
    "world" "hello world" rfl rfl (by decide) rfl rfl rfl rfl
  rw [h]
  decide

/-- C9: the notifier is a no-op whenever the webhook URL is empty or the
previous status equals the new status, and it attempts a dispatch exactly
for the transitions: new status `down` (from anything else), new status
`degraded` (from anything else), `up` after `down`, and `up` after
`degraded` — in particular never for a first-ever `up` check. -/
theorem notify_transition_policy (url : String) (site : Site) (check : Check)
    (prev : Option Status) :
    ((url = "" ∨ prev = some check.status) →
      sendDiscordNotification url site check prev = NotifyDecision.noop) ∧
    (attemptsDispatch (sendDiscordNotification url site check prev) = true ↔
      (url ≠ "" ∧
        ((check.status = Status.down ∧ prev ≠ some Status.down) ∨
         (check.status = Status.degraded ∧ prev ≠ some Status.degraded) ∨
         (check.status = Status.up ∧
           (prev = some Status.down ∨ prev = some Status.degraded))))) := by
  by_cases hu : url = ""
  · constructor
    · intro _
      simp [sendDiscordNotification, hu, String.isEmpty_iff]
    · simp [sendDiscordNotification, attemptsDispatch, hu, String.isEmpty_iff]
  · have hne : url.isEmpty = false := by
      rcases h : url.isEmpty with _ | _
      · rfl
      · exact absurd (String.isEmpty_iff url |>.mp h) hu
    constructor
    · intro h
      rcases h with h | h
      · exact absurd h hu
      · simp [sendDiscordNotification, hne, h]
    · rcases hcs : check.status with _ | _ | _ <;>
        rcases prev with _ | st <;>
        (try cases st) <;>
        simp [sendDiscordNotification, attemptsDispatch, hne, hcs, hu]

/-- Witness for C9: an `up` check repeating a previous `up` with a
configured webhook is a no-op, and a `down` after `up` attempts a
dispatch. -/
theorem notify_transition_policy_witness :
    sendDiscordNotification "https://hooks.example/h" siteA checkUpRec (some Status.up) =
      NotifyDecision.noop ∧
    attemptsDispatch
      (sendDiscordNotification "https://hooks.example/h" siteA checkDownRec (some Status.up)) =
      true :=
  ⟨(notify_transition_policy "https://hooks.example/h" siteA checkUpRec (some Status.up)).1
      (Or.inr rfl),
    (notify_transition_policy "https://hooks.example/h" siteA checkDownRec
      (some Status.up)).2.mpr (by decide)⟩

/-- Reduction of `performCheck` on the classification path (DNS resolved,
no transport error): the result is the record built from the five decision
conditions. -/
theorem performCheck_classified (site : Site) (isHttps : Bool)
    (httpResult : HttpResult) (ssl : SslOutcome) (now : Int)
    (herr : truthyStr httpResult.error = false) :
    performCheck site isHttps true httpResult ssl now =
      { status := classifyStatus (isHttpOk httpResult.status)
          (isSslInvalid site.checkSsl isHttps (derivedSslValid site isHttps ssl))
          (isSlow httpResult.responseTimeMs)
          (isSslExpiringSoon (derivedSslExpiresAt site isHttps ssl) now)
          (isContentMissing site.checkContent (derivedContentFound site httpResult.body))
        httpStatus := httpResult.status
        responseTimeMs := some httpResult.responseTimeMs
        sslValid := derivedSslValid site isHttps ssl
        sslExpiresAt := derivedSslExpiresAt site isHttps ssl
        dnsResolved := true
        contentFound := derivedContentFound site httpResult.body
        errorMessage := classifyMessage httpResult.status (isHttpOk httpResult.status)
          (isSslInvalid site.checkSsl isHttps (derivedSslValid site isHttps ssl))
          (isSlow httpResult.responseTimeMs)
          (isSslExpiringSoon (derivedSslExpiresAt site isHttps ssl) now)
          (isContentMissing site.checkContent (derivedContentFound site httpResult.body)) } := by
  simp [performCheck, herr]

/-- C1: on the classification path (DNS resolved, a status code produced),
the status/reason decision is first-match-wins in the stated order: a
status outside [200, 400) gives `down` with reason "HTTP {status}"; else
an invalid certificate on a checked HTTPS site gives `down` with reason
"SSL certificate invalid"; else the result is `degraded` iff at least one
of slow response, SSL expiring soon, configured content missing holds,
with the reason taken from the first of those that holds; else `up` with
no reason. -/
theorem classification_first_match
    (site : Site) (isHttps : Bool) (httpResult : HttpResult) (ssl : SslOutcome)
    (now code : Int)
    (herr : truthyStr httpResult.error = false)
    (hstatus : httpResult.status = some code) :
    ((¬ (200 ≤ code ∧ code < 400)) →
      (performCheck site isHttps true httpResult ssl now).status = Status.down ∧
      (performCheck site isHttps true httpResult ssl now).errorMessage =
        some ("HTTP " ++ toString code)) ∧
    ((200 ≤ code ∧ code < 400) →
      isSslInvalid site.checkSsl isHttps (derivedSslValid site isHttps ssl) = true →
      (performCheck site isHttps true httpResult ssl now).status = Status.down ∧
      (performCheck site isHttps true httpResult ssl now).errorMessage =
        some "SSL certificate invalid") ∧
    ((200 ≤ code ∧ code < 400) →
      isSslInvalid site.checkSsl isHttps (derivedSslValid site isHttps ssl) = false →
      (((performCheck site isHttps true httpResult ssl now).status = Status.degraded) ↔
        (isSlow httpResult.responseTimeMs = true ∨
         isSslExpiringSoon (derivedSslExpiresAt site isHttps ssl) now = true ∨
         isContentMissing site.checkContent (derivedContentFound site httpResult.body) = true)) ∧
      (isSlow httpResult.responseTimeMs = true →
        (performCheck site isHttps true httpResult ssl now).errorMessage =
          some "Response time > 3s") ∧
      (isSlow httpResult.responseTimeMs = false →
        isSslExpiringSoon (derivedSslExpiresAt site isHttps ssl) now = true →
        (performCheck site isHttps true httpResult ssl now).errorMessage =
          some "SSL certificate expiring soon") ∧
      (isSlow httpResult.responseTimeMs = false →
        isSslExpiringSoon (derivedSslExpiresAt site isHttps ssl) now = false →
        isContentMissing site.checkContent (derivedContentFound site httpResult.body) = true →
        (performCheck site isHttps true httpResult ssl now).errorMessage =
          some "Expected content not found") ∧
      (isSlow httpResult.responseTimeMs = false →
        isSslExpiringSoon (derivedSslExpiresAt site isHttps ssl) now = false →
        isContentMissing site.checkContent (derivedContentFound site httpResult.body) = false →
        (performCheck site isHttps true httpResult ssl now).status = Status.up ∧
        (performCheck site isHttps true httpResult ssl now).errorMessage = none)) := by
  have hpc := performCheck_classified site isHttps httpResult ssl now herr
  refine ⟨?_, ?_, ?_⟩
  · intro hdown
    have h1 : isHttpOk (some code) = false := by
      simp only [isHttpOk, Bool.and_eq_false_iff, decide_eq_false_iff_not]
      omega
    rw [hpc]
    simp [hstatus, h1, classifyStatus, classifyMessage, jsNumToString]
  · intro hok hssl
    have h1 : isHttpOk (some code) = true := by
      simp only [isHttpOk, Bool.and_eq_true, decide_eq_true_eq]
      exact hok
    rw [hpc]
    simp [hstatus, h1, hssl, classifyStatus, classifyMessage]
  · intro hok hssl
    have h1 : isHttpOk (some code) = true := by
      simp only [isHttpOk, Bool.and_eq_true, decide_eq_true_eq]
      exact hok
    rw [hpc]
    cases hs : isSlow httpResult.responseTimeMs <;>
      cases he : isSslExpiringSoon (derivedSslExpiresAt site isHttps ssl) now <;>
      cases hc : isContentMissing site.checkContent (derivedContentFound site httpResult.body) <;>
      simp [hstatus, h1, hssl, hs, he, hc, classifyStatus, classifyMessage]

/-- Witness for C1: an HTTP 500 is classified `down` with reason
"HTTP 500". -/
theorem classification_first_match_witness :
    (performCheck siteContent true true http500 sslLongValid 0).status = Status.down ∧
    (performCheck siteContent true true http500 sslLongValid 0).errorMessage =
      some "HTTP 500" := by
  have h := (classification_first_match siteContent true http500 sslLongValid 0 500
    rfl rfl).1 (by decide)
  refine ⟨h.1, ?_⟩
  rw [h.2]
  decide

/-- C8: when a cycle actually runs, every site in the fetched list
contributes its full per-site processing trace to the cycle's trace —
whatever errors the other sites' stages throw — and the cycle ends with
`isRunning` reset to false. -/
theorem cycle_isolates_site_failures (env : CycleEnv) (s : SchedulerState)
    (sites : List (Site × SiteScript))
    (hflag : s.isRunning = false)
    (hfetch : env.fetchSites = StageResult.ok sites) :
    (runChecks env s).1.isRunning = false ∧
    ∀ p ∈ sites, processSite env.envWebhook p.1 p.2 <:+: (runChecks env s).2 := by
  have hrc : runChecks env s =
      ({ isRunning := false },
        Event.fetchSites sites.length ::
          (sites.map fun p => processSite env.envWebhook p.1 p.2).flatten) := by
    simp [runChecks, hflag, hfetch]
  refine ⟨by rw [hrc], ?_⟩
  intro p hp
  rw [hrc]
  have hmem : processSite env.envWebhook p.1 p.2 ∈
      sites.map fun q => processSite env.envWebhook q.1 q.2 :=
    List.mem_map_of_mem _ hp
  exact (List.infix_of_mem_flatten hmem).trans (List.suffix_cons _ _).isInfix

/-- Witness for C8: in a two-site cycle whose first site's probe throws,
the second site's full trace still occurs and the flag ends false. -/
theorem cycle_isolates_site_failures_witness :
    (runChecks envTwoSites (SchedulerState.mk false)).1.isRunning = false ∧
    processSite none siteA scGood <:+: (runChecks envTwoSites (SchedulerState.mk false)).2 := by
  have h := cycle_isolates_site_failures envTwoSites (SchedulerState.mk false)
    [(siteContent, scBad), (siteA, scGood)] rfl rfl
  exact ⟨h.1, h.2 (siteA, scGood) (by simp)⟩

/-- C3 counterexample: with the `cycleInProgress` flag set (a scheduled
cycle running), the manual check still issues its probe and leaves the
flag untouched — it is not governed by the overlap mechanism, under which
a trigger observing the set flag performs zero probes. -/
theorem manual_check_bypasses_flag_cex :
    (SchedulerState.mk true).isRunning = true ∧
    (triggerCheckS envManual (SchedulerState.mk true)).1 = SchedulerState.mk true ∧
    probeCount (triggerTrace envManual) = 1 := by
  refine ⟨rfl, rfl, ?_⟩
  decide

/-- C3 amended: `triggerCheck` neither observes nor sets the scheduler's
`cycleInProgress` flag: it returns the scheduler state unchanged, behaves
identically whether or not a scheduled cycle is in progress, and (when
authenticated and the site is found) always issues exactly one probe. -/
theorem manual_check_independent_of_flag (env : TriggerEnv) (s : SchedulerState)
    (huid : env.sessionUserId.isSome = true) (hsite : env.site.isSome = true) :
    (triggerCheckS env s).1 = s ∧
    (triggerCheckS env s).2 = (triggerCheckS env (SchedulerState.mk false)).2 ∧
    probeCount (triggerTrace env) = 1 := by
  refine ⟨rfl, rfl, ?_⟩
  obtain ⟨uid, hu⟩ := Option.isSome_iff_exists.mp huid
  obtain ⟨st, hs2⟩ := Option.isSome_iff_exists.mp hsite
  simp only [triggerTrace, triggerCheckEvents, hu, hs2]
  split
  · cases env.latestAfterSave <;> simp [probeCount]
  · simp [probeCount]

/-- Witness for the amended C3 at a flagged state. -/
theorem manual_check_independent_of_flag_witness :
    (triggerCheckS envManual (SchedulerState.mk true)).1 = SchedulerState.mk true ∧
    probeCount (triggerTrace envManual) = 1 :=
  ⟨(manual_check_independent_of_flag envManual (SchedulerState.mk true) rfl rfl).1,
    (manual_check_independent_of_flag envManual (SchedulerState.mk true) rfl rfl).2.2⟩

/-- C6 counterexample: on the on-demand check with a detected transition
(down → up), the per-user webhook absent, and a process-wide default
available (so `getWebhookUrl` would resolve it), no notification is
attempted — `triggerCheck` never consults the process-wide default. -/
theorem webhook_fallback_not_used_on_manual_cex :
    getWebhookUrl none (some "https://hooks.example/default") =
      some "https://hooks.example/default" ∧
    envManualTransition.prevCheck.map (fun c => c.status) = some Status.down ∧
    envManualTransition.probeResult.status = Status.up ∧
    notifyCount (triggerTrace envManualTransition) = 0 := by
  refine ⟨rfl, rfl, rfl, ?_⟩
  decide

/-- C6 amended: the scheduled cycle resolves the webhook via
`getWebhookUrl` (per-user when configured, else the process-wide default)
and attempts a notification on a transition exactly when that resolution
is non-null, using the resolved URL; the on-demand check consults only
the per-user webhook — it attempts nothing when the user has none, and
attempts a dispatch to the user's URL on a transition when one is set. -/
theorem webhook_resolution_policy
    (envWebhook : Option String) (site : Site) (prev : Option Check)
    (result : CheckResult) (user : Option UserRec) (newCheck : Check)
    (tenv : TriggerEnv) (url : String) :
    (prev.map (fun c => c.status) ≠ some result.status →
      getWebhookUrl (user.bind (fun u => u.discordWebhookUrl)) envWebhook = some url →
      processSite envWebhook site (scheduledScript prev result user (some newCheck)) =
        [Event.probe site.id, Event.persist site.id, Event.notifyAttempt site.id url]) ∧
    (getWebhookUrl (user.bind (fun u => u.discordWebhookUrl)) envWebhook = none →
      notifyCount
        (processSite envWebhook site (scheduledScript prev result user (some newCheck))) = 0) ∧
    (truthyStr (tenv.user.bind (fun u => u.discordWebhookUrl)) = false →
      notifyCount (triggerTrace tenv) = 0) ∧
    (tenv.sessionUserId.isSome = true →
      tenv.site = some site →
      tenv.user.bind (fun u => u.discordWebhookUrl) = some url →
      truthyStr (some url) = true →
      tenv.prevCheck.map (fun c => c.status) ≠ some tenv.probeResult.status →
      tenv.latestAfterSave.isSome = true →
      Event.notifyAttempt site.id url ∈ triggerTrace tenv) := by
  refine ⟨?_, ?_, ?_, ?_⟩
  · intro ht hw
    simp [processSite, scheduledScript, ht, hw]
  · intro hw
    by_cases hb : prev.map (fun c => c.status) = some result.status
    · simp [processSite, scheduledScript, hb, notifyCount]
    · simp [processSite, scheduledScript, hb, hw, notifyCount]
  · intro htr
    rcases hu : tenv.sessionUserId with _ | uid
    · simp [triggerTrace, triggerCheckEvents, hu, notifyCount]
    · rcases hs2 : tenv.site with _ | st
      · simp [triggerTrace, triggerCheckEvents, hu, hs2, notifyCount]
      · simp [triggerTrace, triggerCheckEvents, hu, hs2, htr, notifyCount]
  · intro h1 h2 h3 h4 h5 h6
    obtain ⟨uid, hu⟩ := Option.isSome_iff_exists.mp h1
    obtain ⟨newc, hn⟩ := Option.isSome_iff_exists.mp h6
    simp [triggerTrace, triggerCheckEvents, hu, h2, h3, h4, h5, hn]

/-- Witness for the amended C6: on the scheduled path a down-to-up
transition with no per-user webhook dispatches to the process-wide
default URL. -/
theorem webhook_resolution_policy_witness :
    processSite (some "https://hooks.example/default") siteA
      (scheduledScript (some checkDownRec) resUp (some userNoWebhook) (some checkUpRec)) =
      [Event.probe siteA.id, Event.persist siteA.id,
        Event.notifyAttempt siteA.id "https://hooks.example/default"] :=
  (webhook_resolution_policy (some "https://hooks.example/default") siteA
    (some checkDownRec) resUp (some userNoWebhook) checkUpRec envManualTransition
    "https://hooks.example/default").1 (by decide) (by decide)

end IsItUp
